import Mathlib

/-
Shallow embedding of the offline-aware caching layer of the weather app:
`src/lib/cacheService.ts` (CacheService, StorageService.cleanupUnfavoritedCache)
and `src/lib/offlineWeatherHooks.ts` (useOfflineWeatherData,
useOfflineWeatherDataByCoords).

Modelling conventions:
- JS `number` fields of the opaque weather payloads are embedded as `Int`;
  no claim performs arithmetic on payload fields, only equality.
- `Date.now()` is passed explicitly as a `now : Int` argument (epoch ms).
- `localStorage` is an association list from string keys to stored values,
  viewed through the lens of `JSON.parse`: a stored string either fails to
  parse (`StoredValue.unparsable`), or parses to a JSON value that either has
  the `CachedWeatherData` shape (`ParsedJson.snapshot`) or does not
  (`ParsedJson.other`) — the source performs no runtime shape validation,
  and the result of `JSON.parse` is returned under a bare type assertion.
- JS string operations used by the source (`toLowerCase`, `startsWith`,
  and `replace` of the leading prefix by the empty string) are modelled on
  the character list of the Lean `String`.
-/

/-- Field `coord` of CurrentWeather and of ForecastData.city
(src/lib/weatherService.ts). -/
structure Coord where
  lon : Int
  lat : Int
deriving DecidableEq

/-- Interface WeatherData (src/lib/weatherService.ts). -/
structure WeatherData where
  id : Int
  main : String
  description : String
  icon : String
deriving DecidableEq

/-- Interface MainWeatherInfo (src/lib/weatherService.ts). -/
structure MainWeatherInfo where
  temp : Int
  feels_like : Int
  temp_min : Int
  temp_max : Int
  pressure : Int
  humidity : Int
deriving DecidableEq

/-- Interface WindInfo (src/lib/weatherService.ts). -/
structure WindInfo where
  speed : Int
  deg : Int
deriving DecidableEq

/-- Interface CloudsInfo (src/lib/weatherService.ts). -/
structure CloudsInfo where
  all : Int
deriving DecidableEq

/-- Interface SysInfo (src/lib/weatherService.ts). -/
structure SysInfo where
  type : Int
  id : Int
  country : String
  sunrise : Int
  sunset : Int
deriving DecidableEq

/-- Interface CurrentWeather (src/lib/weatherService.ts): the opaque
current-conditions payload. -/
structure CurrentWeather where
  coord : Coord
  weather : List WeatherData
  base : String
  main : MainWeatherInfo
  visibility : Int
  wind : WindInfo
  clouds : CloudsInfo
  dt : Int
  sys : SysInfo
  timezone : Int
  id : Int
  name : String
  cod : Int
deriving DecidableEq

/-- Interface ForecastItem (src/lib/weatherService.ts). -/
structure ForecastItem where
  dt : Int
  main : MainWeatherInfo
  weather : List WeatherData
  clouds : CloudsInfo
  wind : WindInfo
  visibility : Int
  pop : Int
  dt_txt : String
deriving DecidableEq

/-- Field `city` of ForecastData (src/lib/weatherService.ts). -/
structure ForecastCity where
  id : Int
  name : String
  coord : Coord
  country : String
  population : Int
  timezone : Int
  sunrise : Int
  sunset : Int
deriving DecidableEq

/-- Interface ForecastData (src/lib/weatherService.ts): the opaque forecast
payload. -/
structure ForecastData where
  cod : String
  message : Int
  cnt : Int
  list : List ForecastItem
  city : ForecastCity
deriving DecidableEq

/-- Interface CachedWeatherData (src/lib/cacheService.ts). -/
structure CachedWeatherData where
  currentWeather : CurrentWeather
  forecast : ForecastData
  timestamp : Int
  cityName : String
deriving DecidableEq

/-- Result of `JSON.parse` on a string stored in localStorage: either a value
with the CachedWeatherData shape, or any other JSON value (the source never
validates the shape; `getCachedWeatherData` returns whatever parsed). -/
inductive ParsedJson where
  | snapshot (d : CachedWeatherData)
  | other (tag : Nat)
deriving DecidableEq

/-- Raw string persisted in localStorage, viewed through `JSON.parse`:
`unparsable` is text on which `JSON.parse` throws (caught by the source and
turned into `null`), `parsed v` is text that parses to the JSON value `v`. -/
inductive StoredValue where
  | unparsable
  | parsed (v : ParsedJson)
deriving DecidableEq

/-- Model of the browser localStorage visible to the cache layer: an
association list from string keys to stored values.  Enumeration order of
`localStorage.key(i)` is implementation-defined in the browser; this model
fixes one order, and no claim depends on it. -/
abbrev Store := List (String × StoredValue)

/-- Model of `localStorage.getItem`: the value at the first matching key. -/
def getItem : Store → String → Option StoredValue
  | [], _ => none
  | kv :: rest, k => if kv.1 = k then some kv.2 else getItem rest k

/-- Model of `localStorage.removeItem`: drop the binding for `k`. -/
def removeItem : Store → String → Store
  | [], _ => []
  | kv :: rest, k => if kv.1 = k then removeItem rest k else kv :: removeItem rest k

/-- Model of `localStorage.setItem`: overwrite the binding for `k`. -/
def setItem (s : Store) (k : String) (v : StoredValue) : Store :=
  removeItem s k ++ [(k, v)]

/-- Keys currently present, in enumeration order (`localStorage.key(i)`). -/
def storeKeys (s : Store) : List String :=
  s.map (fun kv => kv.1)

/-- JS `String.prototype.toLowerCase`, modelled on the character list. -/
def jsToLower (s : String) : String :=
  String.mk (s.data.map Char.toLower)

/-- JS `String.prototype.startsWith`, modelled on the character list. -/
def jsStartsWith (s p : String) : Bool :=
  p.data.isPrefixOf s.data

/-- JS `key.replace(CACHE_KEY_PREFIX, ...)` with the empty string as the
replacement, for a key that starts with the prefix:
`String.prototype.replace` with a string pattern replaces exactly the first
occurrence, which for such a key is the leading prefix, so the call drops
the first `n` characters. -/
def jsDrop (s : String) (n : Nat) : String :=
  String.mk (s.data.drop n)

/-- Constant CACHE_KEY_PREFIX of src/lib/cacheService.ts. -/
def CACHE_KEY_PFX : String := "weather-cache-"

/-- Constant CACHE_EXPIRY_MS = 30 * 60 * 1000 of src/lib/cacheService.ts. -/
def CACHE_EXPIRY_MS : Int := 30 * 60 * 1000

/-- Reserved prefix of coordinate-derived cache keys
(`coords_${lat}_${lon}`, src/lib/offlineWeatherHooks.ts). -/
def coordsPfx : String := "coords_"

/-- CacheService.setCachedWeatherData (src/lib/cacheService.ts, lines 17-31):
stores `{currentWeather, forecast, timestamp: Date.now(), cityName:
cityName.toLowerCase()}` under key CACHE_KEY_PREFIX + cityName.toLowerCase().
`Date.now()` is the explicit `now` argument. -/
def setCachedWeatherData (now : Int) (cityName : String)
    (currentWeather : CurrentWeather) (forecast : ForecastData)
    (s : Store) : Store :=
  setItem s (CACHE_KEY_PFX ++ jsToLower cityName)
    (StoredValue.parsed (ParsedJson.snapshot
      ⟨currentWeather, forecast, now, jsToLower cityName⟩))

/-- CacheService.getCachedWeatherData (src/lib/cacheService.ts, lines 36-49):
`localStorage.getItem` on the prefixed lowercased key; a missing entry gives
`null`, a `JSON.parse` failure is caught and gives `null`, and any
successfully parsed value is returned as-is (no shape validation). -/
def getCachedWeatherData (s : Store) (cityName : String) : Option ParsedJson :=
  match getItem s (CACHE_KEY_PFX ++ jsToLower cityName) with
  | none => none
  | some StoredValue.unparsable => none
  | some (StoredValue.parsed v) => some v

/-- CacheService.isCacheDataFresh (src/lib/cacheService.ts, lines 54-57):
`(now - cachedData.timestamp) < CACHE_EXPIRY_MS`. -/
def isCacheDataFresh (now : Int) (cachedData : CachedWeatherData) : Bool :=
  now - cachedData.timestamp < CACHE_EXPIRY_MS

/-- CacheService.getCacheAge (src/lib/cacheService.ts, lines 62-65):
`Math.floor((now - cachedData.timestamp) / (1000 * 60))`; `Math.floor` of the
real quotient is floor division, `Int.fdiv`. -/
def getCacheAge (now : Int) (cachedData : CachedWeatherData) : Int :=
  Int.fdiv (now - cachedData.timestamp) (1000 * 60)

/-- CacheService.removeCachedData (src/lib/cacheService.ts, lines 70-77). -/
def removeCachedData (cityName : String) (s : Store) : Store :=
  removeItem s (CACHE_KEY_PFX ++ jsToLower cityName)

/-- CacheService.getAllCachedCities (src/lib/cacheService.ts, lines 82-97):
every stored key that starts with CACHE_KEY_PREFIX, with the prefix
stripped. -/
def getAllCachedCities (s : Store) : List String :=
  (storeKeys s).filterMap (fun k =>
    if jsStartsWith k CACHE_KEY_PFX then some (jsDrop k CACHE_KEY_PFX.length)
    else none)

/-- Body of the `cachedCities.forEach` callback in
StorageService.cleanupUnfavoritedCache (src/lib/storage.ts): skip
coordinate-prefixed entries, keep entries with a favorite whose lowercasing
equals the cached key, remove the rest. -/
def cleanupStep (favorites : List String) (st : Store) (cachedCity : String) :
    Store :=
  if jsStartsWith cachedCity coordsPfx then st
  else if favorites.any (fun fav => jsToLower fav = cachedCity) then st
  else removeCachedData cachedCity st

/-- StorageService.cleanupUnfavoritedCache (src/lib/storage.ts, lines
227-245).  The favorites list read by `this.getFavorites()` is passed as the
`favorites` argument; its own persistence is orthogonal to this operation. -/
def cleanupUnfavoritedCache (favorites : List String) (s : Store) : Store :=
  (getAllCachedCities s).foldl (cleanupStep favorites) s

/-- JS number as it can appear in the `cacheAge` field of the hook result:
`getCacheAge` applied to a parsed value without a numeric `timestamp`
evaluates `(now - undefined)` to `NaN`. -/
inductive JsNum where
  | nan
  | int (n : Int)
deriving DecidableEq

/-- State of one react-query query as read by the hooks: `data`,
`isLoading`, `error` (modelled by its message). -/
structure QueryResult (α : Type) where
  data : Option α
  isLoading : Bool
  errorMsg : Option String
deriving DecidableEq

/-- Interface OfflineWeatherResult (src/lib/offlineWeatherHooks.ts, lines
7-16).  The `refetch` closure is modelled separately by the remote-call
functions below; `error` is modelled by its message. -/
structure OfflineWeatherResult where
  currentWeather : Option CurrentWeather
  forecast : Option ForecastData
  isLoading : Bool
  errorMsg : Option String
  isOffline : Bool
  isCachedData : Bool
  cacheAge : Option JsNum
deriving DecidableEq

/-- Offline-branch return value of useOfflineWeatherData
(src/lib/offlineWeatherHooks.ts, lines 99-110), as a function of the
`cachedData` state loaded from the store.  `cachedData?.currentWeather ||
null` on a parsed value without that property yields `undefined || null =
null`; `CacheService.getCacheAge(cachedData)` on a parsed value without a
numeric `timestamp` yields `NaN`. -/
def offlineResult (now : Int) (cachedData : Option ParsedJson) :
    OfflineWeatherResult where
  currentWeather :=
    match cachedData with
    | some (ParsedJson.snapshot d) => some d.currentWeather
    | some (ParsedJson.other _) => none
    | none => none
  forecast :=
    match cachedData with
    | some (ParsedJson.snapshot d) => some d.forecast
    | some (ParsedJson.other _) => none
    | none => none
  isLoading := false
  errorMsg :=
    match cachedData with
    | some _ => none
    | none => some "No cached data available"
  isOffline := true
  isCachedData := cachedData.isSome
  cacheAge :=
    match cachedData with
    | some (ParsedJson.snapshot d) => some (JsNum.int (getCacheAge now d))
    | some (ParsedJson.other _) => some JsNum.nan
    | none => none

/-- Offline-branch return value of useOfflineWeatherDataByCoords
(src/lib/offlineWeatherHooks.ts, lines 207-217); textually the same
construction as the by-city branch, applied to the `cachedData` state loaded
under the coordinate key.  The float formatting inside the literal key
`coords_${lat}_${lon}` is not modelled; the branch is a function of the
loaded state. -/
def offlineResultByCoords (now : Int) (cachedData : Option ParsedJson) :
    OfflineWeatherResult where
  currentWeather :=
    match cachedData with
    | some (ParsedJson.snapshot d) => some d.currentWeather
    | some (ParsedJson.other _) => none
    | none => none
  forecast :=
    match cachedData with
    | some (ParsedJson.snapshot d) => some d.forecast
    | some (ParsedJson.other _) => none
    | none => none
  isLoading := false
  errorMsg :=
    match cachedData with
    | some _ => none
    | none => some "No cached data available"
  isOffline := true
  isCachedData := cachedData.isSome
  cacheAge :=
    match cachedData with
    | some (ParsedJson.snapshot d) => some (JsNum.int (getCacheAge now d))
    | some (ParsedJson.other _) => some JsNum.nan
    | none => none

/-- Online-branch return value of useOfflineWeatherData
(src/lib/offlineWeatherHooks.ts, lines 112-120): query data and errors,
`isOffline: false`, `isCachedData: false`, no `cacheAge` field. -/
def onlineResult (cwq : QueryResult CurrentWeather)
    (fq : QueryResult ForecastData) : OfflineWeatherResult where
  currentWeather := cwq.data
  forecast := fq.data
  isLoading := cwq.isLoading || fq.isLoading
  errorMsg := cwq.errorMsg.or fq.errorMsg
  isOffline := false
  isCachedData := false
  cacheAge := none

/-- Settled render of useOfflineWeatherData (src/lib/offlineWeatherHooks.ts):
when `isOffline || !navigator.onLine`, the offline branch is returned over
the `cachedData` state, which the effect at lines 41-46 loads from the store
via `CacheService.getCachedWeatherData(city)`; otherwise the online branch is
returned over the two query states. -/
def useOfflineWeatherData_render (isOffline navOnLine : Bool) (s : Store)
    (now : Int) (city : String) (cwq : QueryResult CurrentWeather)
    (fq : QueryResult ForecastData) : OfflineWeatherResult :=
  if isOffline || !navOnLine then offlineResult now (getCachedWeatherData s city)
  else onlineResult cwq fq

/-- Offline lookup of useOfflineWeatherData: the offline branch over the
store read for `city` (src/lib/offlineWeatherHooks.ts, lines 41-46 and
99-110). -/
def useOfflineWeatherData_offline (s : Store) (now : Int) (city : String) :
    OfflineWeatherResult :=
  offlineResult now (getCachedWeatherData s city)

/-- Call of the remote fetch interface (WeatherService, src/lib/weatherService.ts). -/
inductive RemoteCall where
  | fetchCurrent (key : String)
  | fetchForecast (key : String)
deriving DecidableEq

/-- Gate `enabled: !!city && !isOffline` of the current-conditions query of
useOfflineWeatherData (src/lib/offlineWeatherHooks.ts, line 56); react-query
runs the queryFn only when `enabled` is true. -/
def currentQueryEnabled (city : Option String) (isOffline : Bool) : Bool :=
  city.isSome && !isOffline

/-- Gate `enabled: !!city && !isOffline` of the forecast query of
useOfflineWeatherData (src/lib/offlineWeatherHooks.ts, line 70). -/
def forecastQueryEnabled (city : Option String) (isOffline : Bool) : Bool :=
  city.isSome && !isOffline

/-- Remote calls issued by the two queries of useOfflineWeatherData
(src/lib/offlineWeatherHooks.ts, lines 49-75): each queryFn fetches for
`city` and runs only when its `enabled` gate is true. -/
def useOfflineWeatherData_remoteCalls (city : Option String)
    (isOffline : Bool) : List RemoteCall :=
  (if currentQueryEnabled city isOffline then
    [RemoteCall.fetchCurrent (city.getD "")] else [])
  ++ (if forecastQueryEnabled city isOffline then
    [RemoteCall.fetchForecast (city.getD "")] else [])

/-- Remote calls issued by the `refetch` closure of useOfflineWeatherData
(src/lib/offlineWeatherHooks.ts, lines 84-96): when offline it only reloads
the cache state; when online it refetches both queries. -/
def useOfflineWeatherData_refetchCalls (city : Option String)
    (isOffline : Bool) : List RemoteCall :=
  if isOffline then []
  else
    [RemoteCall.fetchCurrent (city.getD ""),
     RemoteCall.fetchForecast (city.getD "")]

/-- Concrete current-conditions payload, for concrete witnesses. -/
def sampleCurrent : CurrentWeather :=
  { coord := ⟨0, 0⟩
  , weather := [⟨800, "Clear", "clear sky", "01d"⟩]
  , base := "stations"
  , main := ⟨15, 14, 12, 17, 1012, 60⟩
  , visibility := 10000
  , wind := ⟨5, 200⟩
  , clouds := ⟨0⟩
  , dt := 0
  , sys := ⟨2, 2075535, "GB", 0, 0⟩
  , timezone := 3600
  , id := 2643743
  , name := "London"
  , cod := 200 }

/-- Concrete forecast payload, for concrete witnesses. -/
def sampleForecast : ForecastData :=
  { cod := "200"
  , message := 0
  , cnt := 1
  , list := [⟨0, ⟨15, 14, 12, 17, 1012, 60⟩, [⟨800, "Clear", "clear sky", "01d"⟩],
      ⟨0⟩, ⟨5, 200⟩, 10000, 0, "2024-01-01 00:00:00"⟩]
  , city := ⟨2643743, "London", ⟨0, 0⟩, "GB", 9000000, 3600, 0, 0⟩ }

/-- Snapshot for "london" captured at epoch 0, for concrete witnesses. -/
def londonSnap0 : CachedWeatherData :=
  ⟨sampleCurrent, sampleForecast, 0, "london"⟩

/-- Lookup distributes over append, first list wins. -/
theorem getItem_append (a b : Store) (k : String) :
    getItem (a ++ b) k = (getItem a k).or (getItem b k) := by
  induction a with
  | nil => simp [getItem]
  | cons kv rest ih =>
    by_cases h : kv.1 = k <;> simp [getItem, h, ih]

/-- Characterization of lookup after `removeItem`. -/
theorem getItem_removeItem (s : Store) (k k' : String) :
    getItem (removeItem s k) k' = if k' = k then none else getItem s k' := by
  induction s with
  | nil => simp [removeItem, getItem]
  | cons kv rest ih =>
    simp only [removeItem]
    by_cases hk : kv.1 = k
    · rw [if_pos hk, ih]
      by_cases hk' : k' = k
      · simp [hk']
      · have hne : kv.1 ≠ k' := by
          rw [hk]
          exact fun he => hk' he.symm
        simp [hk', getItem, hne]
    · rw [if_neg hk]
      by_cases hk' : kv.1 = k'
      · have hne : ¬ k' = k := fun he => hk (hk'.trans he)
        simp [getItem, hk', hne]
      · simp [getItem, hk', ih]

/-- Characterization of lookup after `setItem`. -/
theorem getItem_setItem (s : Store) (k k' : String) (v : StoredValue) :
    getItem (setItem s k v) k' = if k' = k then some v else getItem s k' := by
  unfold setItem
  rw [getItem_append, getItem_removeItem]
  by_cases h : k' = k
  · simp [h, getItem]
  · have hne : ¬ k = k' := fun he => h he.symm
    simp [h, getItem, hne]

/-- A successful lookup comes from an entry of the list. -/
theorem mem_of_getItem_eq_some {s : Store} {k : String} {v : StoredValue}
    (h : getItem s k = some v) : (k, v) ∈ s := by
  induction s with
  | nil => simp [getItem] at h
  | cons kv rest ih =>
    by_cases hk : kv.1 = k
    · simp only [getItem, if_pos hk] at h
      have hkv : kv = (k, v) := by
        cases kv
        simp only [Option.some.injEq] at h
        simp_all
      rw [← hkv]
      exact List.mem_cons_self _ _
    · simp only [getItem, if_neg hk] at h
      exact List.mem_cons_of_mem _ (ih h)

/-- Boolean prefix test on character lists, unfolded. -/
theorem isPrefixOf_eq_true_iff (a b : List Char) :
    a.isPrefixOf b = true ↔ ∃ t, a ++ t = b := by
  induction a generalizing b with
  | nil => simp [List.isPrefixOf]
  | cons x xs ih =>
    cases b with
    | nil => simp [List.isPrefixOf]
    | cons y ys =>
      simp only [List.isPrefixOf, Bool.and_eq_true, beq_iff_eq, ih,
        List.cons_append]
      constructor
      · rintro ⟨hxy, t, ht⟩
        exact ⟨t, by rw [hxy, ht]⟩
      · rintro ⟨t, ht⟩
        injection ht with h1 h2
        exact ⟨h1, t, h2⟩

/-- Data of a string append. -/
theorem str_data_append (a b : String) : (a ++ b).data = a.data ++ b.data := by
  cases a
  cases b
  rfl

/-- A concatenation starts with its left part. -/
theorem jsStartsWith_append (p t : String) : jsStartsWith (p ++ t) p = true := by
  unfold jsStartsWith
  rw [str_data_append, isPrefixOf_eq_true_iff]
  exact ⟨t.data, rfl⟩

/-- Dropping the left part of a concatenation returns the right part. -/
theorem jsDrop_append (p t : String) : jsDrop (p ++ t) p.length = t := by
  unfold jsDrop
  rw [str_data_append]
  have hlen : p.length = p.data.length := rfl
  rw [hlen, List.drop_left]

/-- A string that starts with `p` is `p` followed by the rest. -/
theorem jsStartsWith_recover {k p : String} (h : jsStartsWith k p = true) :
    p ++ jsDrop k p.length = k := by
  unfold jsStartsWith at h
  rw [isPrefixOf_eq_true_iff] at h
  obtain ⟨t, ht⟩ := h
  have hd : jsDrop k p.length = String.mk t := by
    unfold jsDrop
    have hdrop : k.data.drop p.length = t := by
      have hlen : p.length = p.data.length := rfl
      rw [hlen, ← ht, List.drop_left]
    rw [hdrop]
  rw [hd]
  have happ : p ++ String.mk t = String.mk (p.data ++ t) := by
    cases p
    rfl
  rw [happ, ht]

/-- String append is left-cancellative. -/
theorem str_append_left_cancel {p a b : String} (h : p ++ a = p ++ b) :
    a = b := by
  have hd : p.data ++ a.data = p.data ++ b.data := by
    rw [← str_data_append, ← str_data_append, h]
  exact congrArg String.mk (List.append_cancel_left hd)

/-- Reading back the key just written returns the snapshot just built, for
any requested name with the same lowercasing. -/
theorem getCachedWeatherData_set_same (s : Store) (now : Int) (K K' : String)
    (C : CurrentWeather) (F : ForecastData) (h : jsToLower K' = jsToLower K) :
    getCachedWeatherData (setCachedWeatherData now K C F s) K' =
      some (ParsedJson.snapshot ⟨C, F, now, jsToLower K⟩) := by
  unfold getCachedWeatherData setCachedWeatherData
  rw [h, getItem_setItem]
  simp

/-- Writing one key does not change the read of a key with a different
lowercasing. -/
theorem getCachedWeatherData_set_other (s : Store) (now : Int) (K K' : String)
    (C : CurrentWeather) (F : ForecastData) (h : jsToLower K' ≠ jsToLower K) :
    getCachedWeatherData (setCachedWeatherData now K C F s) K' =
      getCachedWeatherData s K' := by
  unfold getCachedWeatherData setCachedWeatherData
  rw [getItem_setItem]
  have hne : CACHE_KEY_PFX ++ jsToLower K' ≠ CACHE_KEY_PFX ++ jsToLower K :=
    fun he => h (str_append_left_cancel he)
  rw [if_neg hne]

/-- Claim C4: for every snapshot and every now, the snapshot is expired
(isCacheDataFresh is false) iff `now - timestamp ≥ CACHE_EXPIRY_MS`
(30 minutes); in particular the freshness check is a strict less-than, so a
snapshot is still fresh at age 29:59 and expired at exactly 30:00. -/
theorem isExpired_iff_age_ge_expiry :
    (∀ (now : Int) (c : CachedWeatherData),
      isCacheDataFresh now c = false ↔ CACHE_EXPIRY_MS ≤ now - c.timestamp)
    ∧ isCacheDataFresh (29 * 60000 + 59 * 1000) londonSnap0 = true
    ∧ isCacheDataFresh (30 * 60000) londonSnap0 = false := by
  refine ⟨fun now c => ?_, by decide, by decide⟩
  simp [isCacheDataFresh, decide_eq_false_iff_not, not_lt]

/-- Claim C2: after `write("london", C, F)` at t = 0, an offline lookup of
"london" at t = 35 minutes returns the stored payload pair with
isOffline = true, isCachedData = true, cacheAge = 35 minutes and no error:
the offline path serves the snapshot even past the 30-minute expiry. -/
theorem offlineLookup_servesExpiredSnapshot (C : CurrentWeather)
    (F : ForecastData) (s : Store) :
    useOfflineWeatherData_offline (setCachedWeatherData 0 "london" C F s)
        (35 * 60000) "london" =
      { currentWeather := some C, forecast := some F, isLoading := false,
        errorMsg := none, isOffline := true, isCachedData := true,
        cacheAge := some (JsNum.int 35) } := by
  unfold useOfflineWeatherData_offline
  rw [getCachedWeatherData_set_same _ _ _ _ _ _ rfl]
  have hage :
      getCacheAge 2100000
        (⟨C, F, 0, jsToLower "london"⟩ : CachedWeatherData) = 35 := by
    show Int.fdiv (2100000 - 0) (1000 * 60) = 35
    decide
  simp [offlineResult, hage]

/-- Claim C8 (amended): an offline lookup of a key with no readable cache
entry returns no data, isOffline = true, isCachedData = false and the error
message "No cached data available" (capital N in the source). -/
theorem offlineLookup_noCache_result (s : Store) (city : String) (now : Int)
    (h : getCachedWeatherData s city = none) :
    useOfflineWeatherData_offline s now city =
      { currentWeather := none, forecast := none, isLoading := false,
        errorMsg := some "No cached data available", isOffline := true,
        isCachedData := false, cacheAge := none } := by
  unfold useOfflineWeatherData_offline
  rw [h]
  rfl

/-- Claim C8, counterexample to the stated error text: the offline lookup of
"atlantis" against an empty store carries the message
"No cached data available", not "no cached data available". -/
theorem offlineLookup_error_message_cex :
    (useOfflineWeatherData_offline [] 0 "atlantis").isOffline = true
    ∧ (useOfflineWeatherData_offline [] 0 "atlantis").isCachedData = false
    ∧ (useOfflineWeatherData_offline [] 0 "atlantis").errorMsg =
        some "No cached data available"
    ∧ (useOfflineWeatherData_offline [] 0 "atlantis").errorMsg ≠
        some "no cached data available" := by
  decide

/-- Claim C8 witness: concrete instance at the empty store and key
"atlantis". -/
theorem offlineLookup_noCache_result_witness :
    getCachedWeatherData [] "atlantis" = none
    ∧ useOfflineWeatherData_offline [] 0 "atlantis" =
      { currentWeather := none, forecast := none, isLoading := false,
        errorMsg := some "No cached data available", isOffline := true,
        isCachedData := false, cacheAge := none } :=
  ⟨by decide, offlineLookup_noCache_result [] "atlantis" 0 (by decide)⟩

/-- Claim C10: in the offline branch of both hooks the provenance fields
agree: isCachedData is true iff a cache entry was found, iff cacheAge is
present, iff the error is absent. -/
theorem offline_provenance_agreement (now now2 : Int)
    (cd cd2 : Option ParsedJson) :
    ((offlineResult now cd).isCachedData = true ↔ cd.isSome = true)
    ∧ ((offlineResult now cd).isCachedData = true ↔
        ((offlineResult now cd).cacheAge).isSome = true)
    ∧ ((offlineResult now cd).isCachedData = true ↔
        (offlineResult now cd).errorMsg = none)
    ∧ ((offlineResultByCoords now2 cd2).isCachedData = true ↔
        cd2.isSome = true)
    ∧ ((offlineResultByCoords now2 cd2).isCachedData = true ↔
        ((offlineResultByCoords now2 cd2).cacheAge).isSome = true)
    ∧ ((offlineResultByCoords now2 cd2).isCachedData = true ↔
        (offlineResultByCoords now2 cd2).errorMsg = none) := by
  rcases cd with _ | (d | t) <;> rcases cd2 with _ | (d2 | t2) <;>
    simp [offlineResult, offlineResultByCoords]

/-- Claim C3: when the connectivity state reports offline, the by-city hook
issues no remote call: both query gates `enabled: !!city && !isOffline` are
false, and the refetch closure only reloads the cache. -/
theorem offline_never_invokes_remote (city : Option String) :
    useOfflineWeatherData_remoteCalls city true = []
    ∧ useOfflineWeatherData_refetchCalls city true = [] := by
  simp [useOfflineWeatherData_remoteCalls, useOfflineWeatherData_refetchCalls,
    currentQueryEnabled, forecastQueryEnabled]

/-- Store holding, under the cache key for "junkcity", a value that parses
as JSON but does not have the snapshot shape. -/
def junkStore : Store :=
  [("weather-cache-junkcity", StoredValue.parsed (ParsedJson.other 0))]

/-- Claim C7, counterexample: a stored value that parses as JSON but is not
a well-formed snapshot is returned by the read, not treated as absent. -/
theorem read_returns_malformed_cex :
    getCachedWeatherData junkStore "junkcity" = some (ParsedJson.other 0)
    ∧ getCachedWeatherData junkStore "junkcity" ≠ none := by
  decide

/-- Claim C7 (amended): read(K) is absent exactly when the entry is missing
or its text fails JSON parsing; any successfully parsed value — snapshot
shaped or not — is returned as-is, with no shape validation. -/
theorem read_absent_characterization (s : Store) (c : String) :
    (getCachedWeatherData s c = none ↔
      (getItem s (CACHE_KEY_PFX ++ jsToLower c) = none ∨
       getItem s (CACHE_KEY_PFX ++ jsToLower c) = some StoredValue.unparsable))
    ∧ (∀ v, getItem s (CACHE_KEY_PFX ++ jsToLower c) =
        some (StoredValue.parsed v) → getCachedWeatherData s c = some v) := by
  unfold getCachedWeatherData
  cases h : getItem s (CACHE_KEY_PFX ++ jsToLower c) with
  | none => simp
  | some sv => cases sv <;> simp

/-- Claim C7 witness: concrete instance on the junk store. -/
theorem read_absent_characterization_witness :
    getItem junkStore (CACHE_KEY_PFX ++ jsToLower "junkcity") =
      some (StoredValue.parsed (ParsedJson.other 0))
    ∧ getCachedWeatherData junkStore "junkcity" = some (ParsedJson.other 0) :=
  ⟨by decide, (read_absent_characterization junkStore "junkcity").2
      (ParsedJson.other 0) (by decide)⟩

/-- Query state after exhausting retries for the current-conditions fetch
(error message from WeatherService.getCurrentWeather). -/
def failedCurrentQuery : QueryResult CurrentWeather :=
  ⟨none, false, some "Weather data not found"⟩

/-- Query state after exhausting retries for the forecast fetch (error
message from WeatherService.getForecast). -/
def failedForecastQuery : QueryResult ForecastData :=
  ⟨none, false, some "Forecast data not found"⟩

/-- Store holding an unexpired snapshot for "london", written at epoch 0. -/
def londonStore : Store :=
  setCachedWeatherData 0 "london" sampleCurrent sampleForecast []

/-- Claim C1, counterexample: online (isOffline = false, navigator online),
fetch failed after retries, and a fresh snapshot for "london" exists — yet
the result has isCachedData = false and carries the fetch error instead of
the snapshot: the online branch never falls back to the cache. -/
theorem onlineFetchFailure_ignoresCache_cex :
    getCachedWeatherData londonStore "london" =
      some (ParsedJson.snapshot londonSnap0)
    ∧ isCacheDataFresh 60000 londonSnap0 = true
    ∧ (useOfflineWeatherData_render false true londonStore 60000 "london"
        failedCurrentQuery failedForecastQuery).isCachedData = false
    ∧ (useOfflineWeatherData_render false true londonStore 60000 "london"
        failedCurrentQuery failedForecastQuery).errorMsg =
        some "Weather data not found" := by
  decide

/-- Claim C1 (amended): when online, a fetch failure (exhausted retries on
both queries) yields the fetch error with isCachedData = false and no data;
the existing unexpired snapshot is not served — cache fallback exists only on
the offline path. -/
theorem onlineFetchFailure_noFallback (s : Store) (K : String) (now : Int)
    (cwq : QueryResult CurrentWeather) (fq : QueryResult ForecastData)
    (d : CachedWeatherData) (e : String)
    (hsnap : getCachedWeatherData s K = some (ParsedJson.snapshot d))
    (hfresh : isCacheDataFresh now d = true)
    (hcd : cwq.data = none) (hfd : fq.data = none)
    (hce : cwq.errorMsg = some e)
    (hcl : cwq.isLoading = false) (hfl : fq.isLoading = false) :
    useOfflineWeatherData_render false true s now K cwq fq =
      { currentWeather := none, forecast := none, isLoading := false,
        errorMsg := some e, isOffline := false, isCachedData := false,
        cacheAge := none } := by
  unfold useOfflineWeatherData_render onlineResult
  simp [hcd, hfd, hce, hcl, hfl, Option.or]

/-- Claim C1 witness: concrete instance on the london store with both
queries failed. -/
theorem onlineFetchFailure_noFallback_witness :
    (getCachedWeatherData londonStore "london" =
        some (ParsedJson.snapshot londonSnap0)
      ∧ isCacheDataFresh 60000 londonSnap0 = true
      ∧ failedCurrentQuery.data = none ∧ failedForecastQuery.data = none
      ∧ failedCurrentQuery.errorMsg = some "Weather data not found"
      ∧ failedCurrentQuery.isLoading = false
      ∧ failedForecastQuery.isLoading = false)
    ∧ useOfflineWeatherData_render false true londonStore 60000 "london"
        failedCurrentQuery failedForecastQuery =
      { currentWeather := none, forecast := none, isLoading := false,
        errorMsg := some "Weather data not found", isOffline := false,
        isCachedData := false, cacheAge := none } :=
  ⟨⟨by decide, by decide, by decide, by decide, by decide, by decide,
      by decide⟩,
   onlineFetchFailure_noFallback londonStore "london" 60000
     failedCurrentQuery failedForecastQuery londonSnap0
     "Weather data not found" (by decide) (by decide) (by decide) (by decide)
     (by decide) (by decide) (by decide)⟩

/-- Claim C9: getCacheAge is the floor of the real quotient
`(now - timestamp) / 60000`; the age of a snapshot read back right after a
write, at the write time, is 0; and the age is monotone as `now` advances
with the snapshot fixed. -/
theorem getCacheAge_floor_zero_monotone (now t1 t2 tw : Int)
    (c : CachedWeatherData) (K : String) (C : CurrentWeather)
    (F : ForecastData) (s : Store) (h : t1 ≤ t2) :
    getCacheAge now c = ⌊(((now : ℚ) - (c.timestamp : ℚ)) / (60000 : ℚ))⌋
    ∧ (∃ d, getCachedWeatherData (setCachedWeatherData tw K C F s) K =
        some (ParsedJson.snapshot d) ∧ getCacheAge tw d = 0)
    ∧ getCacheAge t1 c ≤ getCacheAge t2 c := by
  have hfd : ∀ a : Int, Int.fdiv a (1000 * 60) = a / 60000 := fun a => by
    rw [show ((1000 : Int) * 60) = 60000 by norm_num]
    exact Int.fdiv_eq_ediv a (by norm_num)
  refine ⟨?_, ⟨⟨C, F, tw, jsToLower K⟩,
      getCachedWeatherData_set_same s tw K K C F rfl, ?_⟩, ?_⟩
  · have h2 := Rat.floor_intCast_div_natCast (now - c.timestamp) 60000
    push_cast at h2
    unfold getCacheAge
    rw [hfd]
    exact h2.symm
  · show Int.fdiv (tw - tw) (1000 * 60) = 0
    rw [hfd]
    simp
  · unfold getCacheAge
    rw [hfd, hfd]
    exact Int.ediv_le_ediv (by norm_num) (by linarith)

/-- Claim C9 witness: concrete instance on the london snapshot. -/
theorem getCacheAge_floor_zero_monotone_witness :
    (2 : Int) ≤ 3
    ∧ (getCacheAge 0 londonSnap0 =
        ⌊(((0 : ℚ) - (londonSnap0.timestamp : ℚ)) / (60000 : ℚ))⌋
      ∧ (∃ d, getCachedWeatherData
          (setCachedWeatherData 7 "london" sampleCurrent sampleForecast [])
          "london" = some (ParsedJson.snapshot d) ∧ getCacheAge 7 d = 0)
      ∧ getCacheAge 2 londonSnap0 ≤ getCacheAge 3 londonSnap0) :=
  ⟨by decide, getCacheAge_floor_zero_monotone 0 2 3 7 londonSnap0 "london"
    sampleCurrent sampleForecast [] (by decide)⟩

/-- A write of weather data for one city during the scenario of the
round-trip claim: the key written, its payload pair and the write time. -/
structure WriteOp where
  city : String
  cw : CurrentWeather
  fc : ForecastData
  time : Int
deriving DecidableEq

/-- Sequence of intervening CacheService.setCachedWeatherData calls applied
to the store (reads do not change the store). -/
def applyWrites (ops : List WriteOp) (s : Store) : Store :=
  ops.foldl (fun st op => setCachedWeatherData op.time op.city op.cw op.fc st) s

/-- Intervening writes of keys with a different lowercasing leave the read
of a key unchanged. -/
theorem getCachedWeatherData_applyWrites_other (ops : List WriteOp)
    (s : Store) (K' : String)
    (h : ∀ op ∈ ops, jsToLower op.city ≠ jsToLower K') :
    getCachedWeatherData (applyWrites ops s) K' = getCachedWeatherData s K' := by
  induction ops generalizing s with
  | nil => rfl
  | cons op rest ih =>
    show getCachedWeatherData
      (applyWrites rest (setCachedWeatherData op.time op.city op.cw op.fc s))
      K' = getCachedWeatherData s K'
    rw [ih _ (fun o ho => h o (List.mem_cons_of_mem _ ho))]
    exact getCachedWeatherData_set_other s op.time op.city K' op.cw op.fc
      (fun he => h op (List.mem_cons_self _ _) he.symm)

/-- Claim C5: a write of (C, F) under K followed by a read of any K' that
lowercases equal to K returns exactly the written snapshot, regardless of
intervening reads, or writes of keys with a different lowercasing. -/
theorem write_read_roundtrip (K K' : String) (C : CurrentWeather)
    (F : ForecastData) (now : Int) (s : Store) (ops : List WriteOp)
    (hK : jsToLower K' = jsToLower K)
    (hops : ∀ op ∈ ops, jsToLower op.city ≠ jsToLower K) :
    getCachedWeatherData (applyWrites ops (setCachedWeatherData now K C F s))
        K' = some (ParsedJson.snapshot ⟨C, F, now, jsToLower K⟩) := by
  rw [getCachedWeatherData_applyWrites_other ops _ K'
    (fun op ho he => hops op ho (he.trans hK))]
  exact getCachedWeatherData_set_same s now K K' C F hK

/-- Claim C5 witness: write "London", intervening write of "Paris", read
back "LONDON". -/
theorem write_read_roundtrip_witness :
    (jsToLower "LONDON" = jsToLower "London"
      ∧ ∀ op ∈ [WriteOp.mk "Paris" sampleCurrent sampleForecast 9],
          jsToLower op.city ≠ jsToLower "London")
    ∧ getCachedWeatherData
        (applyWrites [WriteOp.mk "Paris" sampleCurrent sampleForecast 9]
          (setCachedWeatherData 5 "London" sampleCurrent sampleForecast []))
        "LONDON" =
      some (ParsedJson.snapshot
        ⟨sampleCurrent, sampleForecast, 5, jsToLower "London"⟩) :=
  ⟨⟨by decide, by decide⟩,
   write_read_roundtrip "London" "LONDON" sampleCurrent sampleForecast 5 []
     [WriteOp.mk "Paris" sampleCurrent sampleForecast 9] (by decide)
     (by decide)⟩

/-- Removal condition of the forEach body of cleanupUnfavoritedCache: not a
coordinate-prefixed entry and no favorite lowercases to it. -/
def removesCity (favorites : List String) (c : String) : Bool :=
  !(jsStartsWith c coordsPfx) &&
    !(favorites.any (fun fav => jsToLower fav = c))

/-- Effect of one cleanup step on a lookup. -/
theorem getItem_cleanupStep (favorites : List String) (s : Store)
    (c k : String) :
    getItem (cleanupStep favorites s c) k =
      if removesCity favorites c = true ∧ CACHE_KEY_PFX ++ jsToLower c = k
      then none else getItem s k := by
  unfold cleanupStep
  by_cases h1 : jsStartsWith c coordsPfx = true
  · rw [if_pos h1, if_neg]
    rintro ⟨hrem, -⟩
    unfold removesCity at hrem
    rw [h1] at hrem
    simp at hrem
  · rw [if_neg h1]
    by_cases h2 : favorites.any (fun fav => jsToLower fav = c) = true
    · rw [if_pos h2, if_neg]
      rintro ⟨hrem, -⟩
      unfold removesCity at hrem
      rw [h2] at hrem
      simp at hrem
    · rw [if_neg h2]
      unfold removeCachedData
      rw [getItem_removeItem]
      have hrem : removesCity favorites c = true := by
        unfold removesCity
        rw [Bool.and_eq_true]
        constructor
        · simp [Bool.not_eq_true] at h1 ⊢
          exact h1
        · simp [Bool.not_eq_true] at h2 ⊢
          exact h2
      by_cases hk : CACHE_KEY_PFX ++ jsToLower c = k
      · rw [if_pos hk.symm, if_pos ⟨hrem, hk⟩]
      · rw [if_neg (fun he => hk he.symm), if_neg (fun hc => hk hc.2)]

/-- Effect of the whole cleanup fold on a lookup. -/
theorem getItem_cleanupFold (cities favorites : List String) (s : Store)
    (k : String) :
    getItem (cities.foldl (cleanupStep favorites) s) k =
      if ∃ c ∈ cities, removesCity favorites c = true ∧
          CACHE_KEY_PFX ++ jsToLower c = k
      then none else getItem s k := by
  induction cities generalizing s with
  | nil => simp
  | cons c cs ih =>
    rw [List.foldl_cons, ih, getItem_cleanupStep]
    by_cases hc : removesCity favorites c = true ∧
        CACHE_KEY_PFX ++ jsToLower c = k
    · have hex : ∃ x ∈ c :: cs, removesCity favorites x = true ∧
          CACHE_KEY_PFX ++ jsToLower x = k :=
        ⟨c, List.mem_cons_self _ _, hc⟩
      rw [if_pos hc, if_pos hex]
      by_cases hcs : ∃ x ∈ cs, removesCity favorites x = true ∧
          CACHE_KEY_PFX ++ jsToLower x = k
      · rw [if_pos hcs]
      · rw [if_neg hcs]
    · rw [if_neg hc]
      by_cases hcs : ∃ x ∈ cs, removesCity favorites x = true ∧
          CACHE_KEY_PFX ++ jsToLower x = k
      · obtain ⟨x, hx, hxr⟩ := hcs
        rw [if_pos ⟨x, hx, hxr⟩, if_pos ⟨x, List.mem_cons_of_mem _ hx, hxr⟩]
      · rw [if_neg hcs, if_neg]
        rintro ⟨x, hx, hxr⟩
        rcases List.mem_cons.mp hx with rfl | hx'
        · exact hc hxr
        · exact hcs ⟨x, hx', hxr⟩

/-- Membership in getAllCachedCities, unfolded to store entries. -/
theorem mem_getAllCachedCities {s : Store} {c : String} :
    c ∈ getAllCachedCities s ↔
      ∃ kv ∈ s, jsStartsWith kv.1 CACHE_KEY_PFX = true ∧
        jsDrop kv.1 CACHE_KEY_PFX.length = c := by
  unfold getAllCachedCities storeKeys
  simp only [List.mem_filterMap, List.mem_map]
  constructor
  · rintro ⟨k, ⟨kv, hkv, rfl⟩, hif⟩
    by_cases h : jsStartsWith kv.1 CACHE_KEY_PFX = true
    · rw [if_pos h] at hif
      exact ⟨kv, hkv, h, Option.some.inj hif⟩
    · rw [if_neg h] at hif
      exact absurd hif (by simp)
  · rintro ⟨kv, hkv, h, rfl⟩
    exact ⟨kv.1, ⟨kv, hkv, rfl⟩, by rw [if_pos h]⟩

/-- Claim C6: over a store whose city-keyed entries use lowercase names (the
only form `setCachedWeatherData` ever writes), cleanupUnfavoritedCache
removes exactly the prefixed entries that are not coordinate-prefixed and
have no case-insensitive match in the favorites list; every other key —
coordinate-prefixed entries included — is untouched. -/
theorem cleanupUnfavoritedCache_spec (favorites : List String) (s : Store)
    (hlower : ∀ kv ∈ s, jsStartsWith kv.1 CACHE_KEY_PFX = true →
      jsToLower (jsDrop kv.1 CACHE_KEY_PFX.length) =
        jsDrop kv.1 CACHE_KEY_PFX.length)
    (k : String) :
    getItem (cleanupUnfavoritedCache favorites s) k =
      if jsStartsWith k CACHE_KEY_PFX = true
         ∧ jsStartsWith (jsDrop k CACHE_KEY_PFX.length) coordsPfx = false
         ∧ (∀ fav ∈ favorites,
              jsToLower fav ≠ jsDrop k CACHE_KEY_PFX.length)
      then none else getItem s k := by
  unfold cleanupUnfavoritedCache
  rw [getItem_cleanupFold]
  by_cases hex : ∃ c ∈ getAllCachedCities s, removesCity favorites c = true ∧
      CACHE_KEY_PFX ++ jsToLower c = k
  · rw [if_pos hex]
    obtain ⟨c, hc, hrem, hkey⟩ := hex
    rw [mem_getAllCachedCities] at hc
    obtain ⟨kv, hkv, hpfx, hdrop⟩ := hc
    have hlc : jsToLower c = c := by
      rw [← hdrop]
      exact hlower kv hkv hpfx
    rw [hlc] at hkey
    subst hkey
    unfold removesCity at hrem
    rw [Bool.and_eq_true] at hrem
    rw [if_pos]
    refine ⟨jsStartsWith_append _ _, ?_, ?_⟩
    · rw [jsDrop_append]
      simpa using hrem.1
    · intro fav hfav
      rw [jsDrop_append]
      have h2 := hrem.2
      simp only [Bool.not_eq_eq_eq_not, Bool.not_true, List.any_eq_false,
        decide_eq_true_eq] at h2
      exact h2 fav hfav
  · rw [if_neg hex]
    by_cases hcond : jsStartsWith k CACHE_KEY_PFX = true
        ∧ jsStartsWith (jsDrop k CACHE_KEY_PFX.length) coordsPfx = false
        ∧ (∀ fav ∈ favorites, jsToLower fav ≠ jsDrop k CACHE_KEY_PFX.length)
    · rw [if_pos hcond]
      by_contra hne
      obtain ⟨hpfx, hcoords, hfavs⟩ := hcond
      have hv : ∃ v, getItem s k = some v := by
        cases hgi : getItem s k with
        | none => exact absurd hgi hne
        | some v => exact ⟨v, rfl⟩
      obtain ⟨v, hv⟩ := hv
      have hmem := mem_of_getItem_eq_some hv
      have hcities : jsDrop k CACHE_KEY_PFX.length ∈ getAllCachedCities s :=
        mem_getAllCachedCities.mpr ⟨(k, v), hmem, hpfx, rfl⟩
      have hlc : jsToLower (jsDrop k CACHE_KEY_PFX.length) =
          jsDrop k CACHE_KEY_PFX.length := hlower (k, v) hmem hpfx
      apply hex
      refine ⟨jsDrop k CACHE_KEY_PFX.length, hcities, ?_, ?_⟩
      · unfold removesCity
        rw [Bool.and_eq_true]
        constructor
        · simp [hcoords]
        · simp only [Bool.not_eq_eq_eq_not, Bool.not_true, List.any_eq_false,
            decide_eq_true_eq]
          exact hfavs
      · rw [hlc]
        exact jsStartsWith_recover hpfx
    · rw [if_neg hcond]

/-- Snapshot stored for "paris", for the pruning witness. -/
def parisSnap : CachedWeatherData := ⟨sampleCurrent, sampleForecast, 0, "paris"⟩

/-- Snapshot stored for "tokyo", for the pruning witness. -/
def tokyoSnap : CachedWeatherData := ⟨sampleCurrent, sampleForecast, 0, "tokyo"⟩

/-- Store holding snapshots for "paris" and "tokyo". -/
def parisTokyoStore : Store :=
  [("weather-cache-paris", StoredValue.parsed (ParsedJson.snapshot parisSnap)),
   ("weather-cache-tokyo", StoredValue.parsed (ParsedJson.snapshot tokyoSnap))]

/-- Claim C6 witness: favorites = ["Paris"], snapshots for "paris" and
"tokyo"; instance of the pruning characterization at the "tokyo" key. -/
theorem cleanupUnfavoritedCache_spec_witness :
    (∀ kv ∈ parisTokyoStore, jsStartsWith kv.1 CACHE_KEY_PFX = true →
      jsToLower (jsDrop kv.1 CACHE_KEY_PFX.length) =
        jsDrop kv.1 CACHE_KEY_PFX.length)
    ∧ getItem (cleanupUnfavoritedCache ["Paris"] parisTokyoStore)
        "weather-cache-tokyo" =
      (if jsStartsWith "weather-cache-tokyo" CACHE_KEY_PFX = true
          ∧ jsStartsWith (jsDrop "weather-cache-tokyo" CACHE_KEY_PFX.length)
              coordsPfx = false
          ∧ (∀ fav ∈ ["Paris"],
              jsToLower fav ≠ jsDrop "weather-cache-tokyo" CACHE_KEY_PFX.length)
       then none else getItem parisTokyoStore "weather-cache-tokyo") :=
  ⟨by decide, cleanupUnfavoritedCache_spec ["Paris"] parisTokyoStore
    (by decide) "weather-cache-tokyo"⟩
